import Mathlib

/-!
Verification development for a multi-user project/task tracker with two
authentication variants: a stateless JWT variant (src/server.js) and a
stateful session variant (the second source file).  The data model and
handlers below are shallow embeddings of those two files; external
collaborators (bcrypt, jsonwebtoken, the Sequelize relational store,
express-session) are modelled per their use in the handlers.
-/

namespace TaskTracker

/-- Model of the external one-way password hash (bcryptjs).  Only the
round-trip property `compare p (hash p) = true` is relevant to the code. -/
def bcryptHash (p : String) : String := "bh$" ++ p

/-- Model of bcrypt.compare: succeeds exactly on the hash of the plaintext. -/
def bcryptCompare (p h : String) : Bool := bcryptHash p == h

/-- User row (database/setup model, as used by the handlers). -/
structure User where
  id : Nat
  name : String
  email : String
  password : String
  role : String
deriving Repr, DecidableEq

/-- Project row. -/
structure Project where
  id : Nat
  name : String
  description : String
  status : String
  managerId : Nat
deriving Repr, DecidableEq

/-- Task row. -/
structure Task where
  id : Nat
  title : String
  description : String
  projectId : Nat
  assignedUserId : Option Nat
  priority : String
  status : String
deriving Repr, DecidableEq

/-- The relational store (external persistence, spec section 1), with
server-assigned auto-increment identifiers per table. -/
structure Store where
  users : List User
  projects : List Project
  tasks : List Task
  nextUserId : Nat
  nextProjectId : Nat
  nextTaskId : Nat
deriving Repr, DecidableEq

/-- User.findOne where email. -/
def findUserByEmail (st : Store) (e : String) : Option User :=
  st.users.find? (fun u => u.email == e)

/-- User.findByPk. -/
def findUserById (st : Store) (i : Nat) : Option User :=
  st.users.find? (fun u => u.id == i)

/-- Project.findByPk. -/
def findProjectById (st : Store) (i : Nat) : Option Project :=
  st.projects.find? (fun p => p.id == i)

/-- Task.findByPk. -/
def findTaskById (st : Store) (i : Nat) : Option Task :=
  st.tasks.find? (fun t => t.id == i)

/-- JWT claim set: the payload signed into a token (id, name, email, role). -/
structure Claims where
  id : Nat
  name : String
  email : String
  role : String
deriving Repr, DecidableEq

/-- Identity resolved by the session variant (id, name, email only). -/
structure Identity where
  id : Nat
  name : String
  email : String
deriving Repr, DecidableEq

/-- Model of a signed token (jsonwebtoken): claims, expiry, and the secret
it was signed with; signature validity is modelled as secret equality. -/
structure Token where
  claims : Claims
  exp : Nat
  signedWith : String
deriving Repr, DecidableEq

/-- jwt.sign. -/
def jwtSign (secret : String) (c : Claims) (exp : Nat) : Token :=
  ⟨c, exp, secret⟩

/-- jwt.verify: checks the signature and that the expiry has not elapsed. -/
def jwtVerify (secret : String) (now : Nat) (t : Token) : Option Claims :=
  if t.signedWith == secret && now < t.exp then some t.claims else none

/-- Handler output: one constructor per JSON response shape in the sources.
Constructors carrying no explicit status respond 200 except the creation
responses, which respond 201 (see HOut.status). -/
inductive HOut where
  | err (status : Nat) (msg : String)
  | okMsg (msg : String)
  | regOk (token : Token) (user : Claims)
  | regSessionOk (user : Identity)
  | loginOk (token : Token) (user : Claims)
  | loginSessionOk (user : Identity)
  | projectOut (status : Nat) (p : Project)
  | taskOut (status : Nat) (t : Task)
  | usersOut (us : List Identity)
deriving Repr, DecidableEq

/-- HTTP status of a handler output. -/
def HOut.status : HOut → Nat
  | .err s _ => s
  | .okMsg _ => 200
  | .regOk _ _ => 201
  | .regSessionOk _ => 201
  | .loginOk _ _ => 200
  | .loginSessionOk _ => 200
  | .projectOut s _ => s
  | .taskOut s _ => s
  | .usersOut _ => 200

/-- Whether an output is the Guard's Forbidden response (HTTP 403). -/
def isForbidden (o : HOut) : Bool := o.status == 403

/-- The role hierarchy of spec section 4.3 (total order). -/
inductive Role where
  | employee
  | manager
  | admin
deriving Repr, DecidableEq

/-- Rank in the total order employee < manager < admin. -/
def Role.rank : Role → Nat
  | .employee => 0
  | .manager => 1
  | .admin => 2

/-- Strictly-below test in the role order. -/
def Role.isBelow (a b : Role) : Bool := a.rank < b.rank

/-- The string each role is stored as. -/
def Role.toString : Role → String
  | .employee => "employee"
  | .manager => "manager"
  | .admin => "admin"

/-- The operation categories of the section 4.3 policy table. -/
inductive Op where
  | readProfile
  | listUsers
  | listProjects
  | readProject
  | createProject
  | updateProject
  | deleteProject
  | listTasks
  | createTask
  | updateTask
  | deleteTask
deriving Repr, DecidableEq

/-- Minimum role per operation category, from the spec section 4.3 table. -/
def minRole : Op → Role
  | .deleteProject => .admin
  | .listUsers => .admin
  | .createProject => .manager
  | .updateProject => .manager
  | .createTask => .manager
  | .deleteTask => .manager
  | _ => .employee

/-- The closed role enumeration of spec section 3. -/
def validRoles : List String := ["employee", "manager", "admin"]

/-- The closed priority enumeration of spec section 3. -/
def validPriorities : List String := ["low", "medium", "high"]

/-- Request body of POST /api/projects/:id/tasks (both variants destructure
title, description, assignedUserId, priority with default medium). -/
structure TaskCreateBody where
  title : String
  description : String
  assignedUserId : Option Nat
  priority : Option String
deriving Repr, DecidableEq

/-- Request body of POST /api/login. -/
structure LoginBody where
  email : String
  password : String
deriving Repr, DecidableEq

namespace JWT

/-- Request body of POST /api/register in the JWT variant: role is read
from the body with default "employee". -/
structure RegisterBody where
  name : String
  email : String
  password : String
  role : Option String
deriving Repr, DecidableEq

/-- authenticateJWT middleware: a missing/malformed Authorization header is
modelled as none; otherwise the token is verified against the secret. -/
def authenticateJWT (secret : String) (now : Nat) (presented : Option Token) :
    Except HOut Claims :=
  match presented with
  | none => .error (.err 401 "Missing or invalid token")
  | some t =>
    match jwtVerify secret now t with
    | none => .error (.err 401 "Invalid or expired token")
    | some c => .ok c

/-- requireManager middleware (server.js lines 29-33). -/
def requireManager (u : Option Claims) : Option HOut :=
  match u with
  | none => some (.err 401 "Unauthorized")
  | some user =>
    if user.role == "manager" || user.role == "admin" then none
    else some (.err 403 "Managers or admins only")

/-- requireAdmin middleware (server.js lines 35-39). -/
def requireAdmin (u : Option Claims) : Option HOut :=
  match u with
  | none => some (.err 401 "Unauthorized")
  | some user =>
    if user.role == "admin" then none
    else some (.err 403 "Admins only")

/-- The role middleware each JWT-variant route mounts after authenticateJWT
(none for routes protected by authentication only). -/
def routeRoleMiddleware : Op → (Option Claims → Option HOut)
  | .listUsers => requireAdmin
  | .deleteProject => requireAdmin
  | .createProject => requireManager
  | .updateProject => requireManager
  | .createTask => requireManager
  | .deleteTask => requireManager
  | _ => fun _ => none

/-- Whether the JWT variant's role middleware chain denies an authenticated
identity with Forbidden for an operation. -/
def forbids (op : Op) (u : Claims) : Bool :=
  match routeRoleMiddleware op (some u) with
  | some o => isForbidden o
  | none => false

/-- POST /api/register (server.js lines 55-77).  The route mounts no
authentication middleware; role is copied from the body (default employee),
the password is hashed, one row is inserted, and a signed token is issued. -/
def register (secret : String) (expiresAt : Nat) (st : Store)
    (b : RegisterBody) : Store × HOut :=
  let role := b.role.getD "employee"
  match findUserByEmail st b.email with
  | some _ => (st, .err 400 "Email already exists")
  | none =>
    let newUser : User :=
      ⟨st.nextUserId, b.name, b.email, bcryptHash b.password, role⟩
    let token := jwtSign secret ⟨newUser.id, b.name, b.email, role⟩ expiresAt
    ({ st with users := st.users ++ [newUser], nextUserId := st.nextUserId + 1 },
     .regOk token ⟨newUser.id, b.name, b.email, role⟩)

/-- POST /api/login (server.js lines 80-99). -/
def login (secret : String) (expiresAt : Nat) (st : Store) (b : LoginBody) :
    Store × HOut :=
  match findUserByEmail st b.email with
  | none => (st, .err 401 "Invalid credentials")
  | some user =>
    if bcryptCompare b.password user.password then
      let token :=
        jwtSign secret ⟨user.id, user.name, user.email, user.role⟩ expiresAt
      (st, .loginOk token ⟨user.id, user.name, user.email, user.role⟩)
    else (st, .err 401 "Invalid credentials")

/-- POST /api/logout (server.js line 102): stateless, changes nothing. -/
def logout (st : Store) : Store × HOut :=
  (st, .okMsg "Logout successful (JWT stateless)")

/-- Request body of PUT /api/projects/:id (instance.update(req.body)). -/
structure ProjectUpdateBody where
  name : Option String
  description : Option String
  status : Option String
  managerId : Option Nat
deriving Repr, DecidableEq

/-- Sequelize partial update on a project instance: absent fields are
left unchanged. -/
def applyProjectUpdate (p : Project) (b : ProjectUpdateBody) : Project :=
  { p with
    name := b.name.getD p.name
    description := b.description.getD p.description
    status := b.status.getD p.status
    managerId := b.managerId.getD p.managerId }

/-- PUT /api/projects/:id (server.js lines 146-151). -/
def updateProject (st : Store) (pid : Nat) (b : ProjectUpdateBody) :
    Store × HOut :=
  match findProjectById st pid with
  | none => (st, .err 404 "Project not found")
  | some p =>
    let up := applyProjectUpdate p b
    ({ st with projects := st.projects.map (fun q => if q.id == pid then up else q) },
     .projectOut 200 up)

/-- DELETE /api/projects/:id (server.js lines 154-158): destroy where id,
404 when no row was deleted. -/
def deleteProject (st : Store) (pid : Nat) : Store × HOut :=
  let remaining := st.projects.filter (fun p => !(p.id == pid))
  if remaining.length == st.projects.length then
    (st, .err 404 "Project not found")
  else ({ st with projects := remaining }, .okMsg "Project deleted")

/-- POST /api/projects/:id/tasks (server.js lines 169-173).  Modelled from
the spec: database/setup (the Sequelize model definitions) is not under
src/; spec section 9 records that creating a Task against a nonexistent
Project is unguarded in the observed behavior, so Task.create is modelled
as an unconditional insert, matching the handler, which performs no
project-existence check. -/
def createTask (st : Store) (pid : Nat) (b : TaskCreateBody) : Store × HOut :=
  let t : Task :=
    ⟨st.nextTaskId, b.title, b.description, pid, b.assignedUserId,
     b.priority.getD "medium", "pending"⟩
  ({ st with tasks := st.tasks ++ [t], nextTaskId := st.nextTaskId + 1 },
   .taskOut 201 t)

/-- Request body of PUT /api/tasks/:id (instance.update(req.body)). -/
structure TaskUpdateBody where
  title : Option String
  description : Option String
  status : Option String
  priority : Option String
  assignedUserId : Option Nat
deriving Repr, DecidableEq

/-- Sequelize partial update on a task instance: absent fields are left
unchanged. -/
def applyTaskUpdate (t : Task) (b : TaskUpdateBody) : Task :=
  { t with
    title := b.title.getD t.title
    description := b.description.getD t.description
    status := b.status.getD t.status
    priority := b.priority.getD t.priority
    assignedUserId :=
      match b.assignedUserId with
      | none => t.assignedUserId
      | some a => some a }

/-- PUT /api/tasks/:id (server.js lines 176-181). -/
def updateTask (st : Store) (tid : Nat) (b : TaskUpdateBody) : Store × HOut :=
  match findTaskById st tid with
  | none => (st, .err 404 "Task not found")
  | some t =>
    let up := applyTaskUpdate t b
    ({ st with tasks := st.tasks.map (fun q => if q.id == tid then up else q) },
     .taskOut 200 up)

/-- DELETE /api/tasks/:id (server.js lines 184-188). -/
def deleteTask (st : Store) (tid : Nat) : Store × HOut :=
  let remaining := st.tasks.filter (fun t => !(t.id == tid))
  if remaining.length == st.tasks.length then
    (st, .err 404 "Task not found")
  else ({ st with tasks := remaining }, .okMsg "Task deleted")

end JWT

namespace SessionVariant

/-- Cookie maxAge of the session middleware: 24 hours in milliseconds. -/
def sessionTTL : Nat := 24 * 60 * 60 * 1000

/-- Server-side session record (express-session state): exactly the fields
the login handler writes, plus the absolute expiry the cookie carries. -/
structure SessionRec where
  userId : Nat
  userName : String
  userEmail : String
  expiresAt : Nat
deriving Repr, DecidableEq

/-- The in-process session table: opaque reference (session id) to record. -/
abbrev Sessions := List (Nat × SessionRec)

/-- Lookup of the record for a presented session reference. -/
def lookupSession (ss : Sessions) (sid : Nat) : Option SessionRec :=
  (ss.find? (fun p => p.fst == sid)).map (fun p => p.snd)

/-- requireAuth middleware (session source lines 23-34): resolves the
presented reference to an identity of id, name, email; a missing reference,
an unknown reference, or an expired record (enforced by the external
session middleware) yields 401. -/
def requireAuth (ss : Sessions) (now : Nat) (sid : Option Nat) :
    Except HOut Identity :=
  match sid with
  | none => .error (.err 401 "Authentication required")
  | some s =>
    match lookupSession ss s with
    | none => .error (.err 401 "Authentication required")
    | some r =>
      if now < r.expiresAt then .ok ⟨r.userId, r.userName, r.userEmail⟩
      else .error (.err 401 "Authentication required")

/-- Request body of POST /api/register in the session variant: no role
field is read from the body. -/
structure RegisterBody where
  name : String
  email : String
  password : String
deriving Repr, DecidableEq

/-- POST /api/register (session source lines 42-56).  User.create is called
without a role; the role default "employee" is modelled from the spec
(section 4.1) because database/setup is not under src/. -/
def register (st : Store) (b : RegisterBody) : Store × HOut :=
  match findUserByEmail st b.email with
  | some _ => (st, .err 400 "User with this email already exists")
  | none =>
    let newUser : User :=
      ⟨st.nextUserId, b.name, b.email, bcryptHash b.password, "employee"⟩
    ({ st with users := st.users ++ [newUser], nextUserId := st.nextUserId + 1 },
     .regSessionOk ⟨newUser.id, newUser.name, newUser.email⟩)

/-- POST /api/login (session source lines 58-76): on success the handler
writes userId, userName, userEmail into a fresh session record; the session
middleware supplies the fresh reference and the cookie expiry. -/
def login (st : Store) (ss : Sessions) (now : Nat) (freshSid : Nat)
    (b : LoginBody) : Store × Sessions × HOut :=
  match findUserByEmail st b.email with
  | none => (st, ss, .err 401 "Invalid email or password")
  | some user =>
    if bcryptCompare b.password user.password then
      let r : SessionRec := ⟨user.id, user.name, user.email, now + sessionTTL⟩
      (st, (freshSid, r) :: ss,
       .loginSessionOk ⟨user.id, user.name, user.email⟩)
    else (st, ss, .err 401 "Invalid email or password")

/-- POST /api/logout (session source lines 78-83): session.destroy removes
the record for the presented reference. -/
def logout (ss : Sessions) (sid : Option Nat) : Sessions × HOut :=
  match sid with
  | none => (ss, .okMsg "Logout successful")
  | some s => (ss.filter (fun p => !(p.fst == s)), .okMsg "Logout successful")

/-- GET /api/users (session source lines 92-95): only requireAuth guards
this route; it returns id, name, email of every user. -/
def listUsers (st : Store) : HOut :=
  .usersOut (st.users.map (fun u => ⟨u.id, u.name, u.email⟩))

/-- Request body of POST /api/projects. -/
structure ProjectCreateBody where
  name : String
  description : String
  status : Option String
deriving Repr, DecidableEq

/-- POST /api/projects (session source lines 114-118): managerId is the
authenticated identity. -/
def createProject (st : Store) (uid : Nat) (b : ProjectCreateBody) :
    Store × HOut :=
  let p : Project :=
    ⟨st.nextProjectId, b.name, b.description, b.status.getD "active", uid⟩
  ({ st with projects := st.projects ++ [p],
             nextProjectId := st.nextProjectId + 1 },
   .projectOut 201 p)

/-- Request body of PUT /api/projects/:id (the handler destructures name,
description, status). -/
structure ProjectUpdateBody where
  name : Option String
  description : Option String
  status : Option String
deriving Repr, DecidableEq

/-- Sequelize Model.update with the destructured fields: absent (undefined)
fields are ignored. -/
def applyProjectUpdateS (p : Project) (b : ProjectUpdateBody) : Project :=
  { p with
    name := b.name.getD p.name
    description := b.description.getD p.description
    status := b.status.getD p.status }

/-- PUT /api/projects/:id (session source lines 120-126): Model.update
where id, 404 when no row matched, then findByPk for the response. -/
def updateProject (st : Store) (pid : Nat) (b : ProjectUpdateBody) :
    Store × HOut :=
  match findProjectById st pid with
  | none => (st, .err 404 "Project not found")
  | some p =>
    let up := applyProjectUpdateS p b
    ({ st with projects := st.projects.map (fun q => if q.id == pid then up else q) },
     .projectOut 200 up)

/-- DELETE /api/projects/:id (session source lines 128-132). -/
def deleteProject (st : Store) (pid : Nat) : Store × HOut :=
  let remaining := st.projects.filter (fun p => !(p.id == pid))
  if remaining.length == st.projects.length then
    (st, .err 404 "Project not found")
  else
    ({ st with projects := remaining }, .okMsg "Project deleted successfully")

/-- POST /api/projects/:id/tasks (session source lines 140-144).  Modelled
from the spec as in the JWT variant: database/setup is not under src/ and
spec section 9 records the project-existence check as absent, so
Task.create is an unconditional insert; the handler itself performs no
check. -/
def createTask (st : Store) (pid : Nat) (b : TaskCreateBody) : Store × HOut :=
  let t : Task :=
    ⟨st.nextTaskId, b.title, b.description, pid, b.assignedUserId,
     b.priority.getD "medium", "pending"⟩
  ({ st with tasks := st.tasks ++ [t], nextTaskId := st.nextTaskId + 1 },
   .taskOut 201 t)

/-- Request body of PUT /api/tasks/:id (the handler destructures title,
description, status, priority; assignedUserId is not read). -/
structure TaskUpdateBody where
  title : Option String
  description : Option String
  status : Option String
  priority : Option String
deriving Repr, DecidableEq

/-- Sequelize Model.update with the destructured fields: absent fields are
ignored; assignedUserId is never touched by this handler. -/
def applyTaskUpdateS (t : Task) (b : TaskUpdateBody) : Task :=
  { t with
    title := b.title.getD t.title
    description := b.description.getD t.description
    status := b.status.getD t.status
    priority := b.priority.getD t.priority }

/-- PUT /api/tasks/:id (session source lines 146-152). -/
def updateTask (st : Store) (tid : Nat) (b : TaskUpdateBody) : Store × HOut :=
  match findTaskById st tid with
  | none => (st, .err 404 "Task not found")
  | some t =>
    let up := applyTaskUpdateS t b
    ({ st with tasks := st.tasks.map (fun q => if q.id == tid then up else q) },
     .taskOut 200 up)

/-- DELETE /api/tasks/:id (session source lines 154-158). -/
def deleteTask (st : Store) (tid : Nat) : Store × HOut :=
  let remaining := st.tasks.filter (fun t => !(t.id == tid))
  if remaining.length == st.tasks.length then
    (st, .err 404 "Task not found")
  else ({ st with tasks := remaining }, .okMsg "Task deleted successfully")

/-- Route PUT /api/projects/:id with its full middleware chain: requireAuth
is the only guard mounted. -/
def updateProjectRoute (st : Store) (ss : Sessions) (now : Nat)
    (sid : Option Nat) (pid : Nat) (b : ProjectUpdateBody) : Store × HOut :=
  match requireAuth ss now sid with
  | .error e => (st, e)
  | .ok _ => updateProject st pid b

/-- Route DELETE /api/projects/:id with its full middleware chain:
requireAuth is the only guard mounted. -/
def deleteProjectRoute (st : Store) (ss : Sessions) (now : Nat)
    (sid : Option Nat) (pid : Nat) : Store × HOut :=
  match requireAuth ss now sid with
  | .error e => (st, e)
  | .ok _ => deleteProject st pid

/-- Route POST /api/projects with its full middleware chain. -/
def createProjectRoute (st : Store) (ss : Sessions) (now : Nat)
    (sid : Option Nat) (b : ProjectCreateBody) : Store × HOut :=
  match requireAuth ss now sid with
  | .error e => (st, e)
  | .ok ident => createProject st ident.id b

/-- Route POST /api/projects/:id/tasks with its full middleware chain. -/
def createTaskRoute (st : Store) (ss : Sessions) (now : Nat)
    (sid : Option Nat) (pid : Nat) (b : TaskCreateBody) : Store × HOut :=
  match requireAuth ss now sid with
  | .error e => (st, e)
  | .ok _ => createTask st pid b

/-- Route DELETE /api/tasks/:id with its full middleware chain. -/
def deleteTaskRoute (st : Store) (ss : Sessions) (now : Nat)
    (sid : Option Nat) (tid : Nat) : Store × HOut :=
  match requireAuth ss now sid with
  | .error e => (st, e)
  | .ok _ => deleteTask st tid

/-- Route GET /api/users with its full middleware chain. -/
def listUsersRoute (st : Store) (ss : Sessions) (now : Nat)
    (sid : Option Nat) : Store × HOut :=
  match requireAuth ss now sid with
  | .error e => (st, e)
  | .ok _ => (st, listUsers st)

end SessionVariant

/-- A sequence of POST /api/register requests in the JWT variant, each
executed against the store the previous one produced. -/
def JWT.registerAll (secret : String) (expAt : Nat) :
    Store → List JWT.RegisterBody → Store × List HOut
  | st, [] => (st, [])
  | st, b :: rest =>
    let r := JWT.register secret expAt st b
    let rr := JWT.registerAll secret expAt r.1 rest
    (rr.1, r.2 :: rr.2)

/-- A sequence of POST /api/register requests in the session variant. -/
def SessionVariant.registerAll :
    Store → List SessionVariant.RegisterBody → Store × List HOut
  | st, [] => (st, [])
  | st, b :: rest =>
    let r := SessionVariant.register st b
    let rr := SessionVariant.registerAll r.1 rest
    (rr.1, r.2 :: rr.2)

/-! ### Helper lemmas -/

theorem filter_not_of_find?_eq_none {α : Type} {p : α → Bool} {l : List α}
    (h : l.find? p = none) : l.filter (fun x => !(p x)) = l := by
  rw [List.find?_eq_none] at h
  rw [List.filter_eq_self]
  intro a ha
  simp [h a ha]

theorem find?_filter_not_self {α : Type} (p : α → Bool) (l : List α) :
    (l.filter (fun x => !(p x))).find? p = none := by
  rw [List.find?_eq_none]
  intro x hx
  have hmem := (List.mem_filter.mp hx).2
  simp only [Bool.not_eq_true'] at hmem
  simp [hmem]

theorem find?_map_if {α : Type} (p : α → Bool) (b : α) (hb : p b = true)
    (l : List α) (a : α) (ha : l.find? p = some a) :
    (l.map (fun x => if p x then b else x)).find? p = some b := by
  induction l with
  | nil => simp at ha
  | cons h t ih =>
    by_cases hp : p h
    · simp [hp, hb]
    · rw [List.find?_cons_of_neg _ hp] at ha
      simpa [hp, List.find?_cons_of_neg] using ih ha

theorem sessionAuth_cases (ss : SessionVariant.Sessions) (now : Nat)
    (sid : Option Nat) :
    SessionVariant.requireAuth ss now sid =
      .error (.err 401 "Authentication required") ∨
    ∃ i, SessionVariant.requireAuth ss now sid = .ok i := by
  unfold SessionVariant.requireAuth
  cases sid with
  | none => exact Or.inl rfl
  | some s =>
    rcases h : SessionVariant.lookupSession ss s with _ | r
    · simp [h]
    · by_cases hn : now < r.expiresAt
      · exact Or.inr ⟨⟨r.userId, r.userName, r.userEmail⟩, by simp [h, hn]⟩
      · exact Or.inl (by simp [h, hn])

theorem deleteProject_not_forbidden (st : Store) (pid : Nat) :
    isForbidden (SessionVariant.deleteProject st pid).2 = false := by
  by_cases hc : ((st.projects.filter (fun p => !(p.id == pid))).length ==
      st.projects.length) = true <;>
    simp [SessionVariant.deleteProject, hc, isForbidden, HOut.status]

theorem deleteTask_not_forbidden (st : Store) (tid : Nat) :
    isForbidden (SessionVariant.deleteTask st tid).2 = false := by
  by_cases hc : ((st.tasks.filter (fun t => !(t.id == tid))).length ==
      st.tasks.length) = true <;>
    simp [SessionVariant.deleteTask, hc, isForbidden, HOut.status]

theorem updateProject_not_forbidden (st : Store) (pid : Nat)
    (b : SessionVariant.ProjectUpdateBody) :
    isForbidden (SessionVariant.updateProject st pid b).2 = false := by
  unfold SessionVariant.updateProject
  cases findProjectById st pid <;> rfl

/-! ### Claims -/

/-- C1, counterexample: in the session variant an authenticated identity
whose stored role is employee performs delete-project successfully (HTTP
200, the row is removed), although employee is strictly below the admin
minimum of the section 4.3 table, so the check does not deny it. -/
theorem C1_counterexample :
    Role.employee.isBelow (minRole .deleteProject) = true ∧
    (let st : Store :=
      ⟨[⟨1, "bob", "b@x.com", bcryptHash "pw", "employee"⟩],
       [⟨1, "p", "d", "active", 1⟩], [], 2, 2, 1⟩
     let lr := SessionVariant.login st [] 0 7 ⟨"b@x.com", "pw"⟩
     let dr := SessionVariant.deleteProjectRoute lr.1 lr.2.1 1 (some 7) 1
     dr.2 = .okMsg "Project deleted successfully" ∧ dr.1.projects = []) := by
  constructor
  · rfl
  · constructor <;> rfl

/-- C1, amended: in the JWT variant the role middleware denies an
authenticated identity with Forbidden exactly when its role is strictly
below the operation's minimum role in the section 4.3 table; the session
variant mounts no role middleware, so an identity is never denied with
Forbidden there — shown for every operation whose table minimum exceeds
employee (create/update/delete project, create/delete task, list users). -/
theorem C1_amended :
    (∀ (r : Role) (op : Op) (i : Nat) (n e : String),
      JWT.forbids op ⟨i, n, e, r.toString⟩ = r.isBelow (minRole op)) ∧
    (∀ st ss now sid pid,
      isForbidden (SessionVariant.deleteProjectRoute st ss now sid pid).2 = false) ∧
    (∀ st ss now sid pid b,
      isForbidden (SessionVariant.updateProjectRoute st ss now sid pid b).2 = false) ∧
    (∀ st ss now sid b,
      isForbidden (SessionVariant.createProjectRoute st ss now sid b).2 = false) ∧
    (∀ st ss now sid pid b,
      isForbidden (SessionVariant.createTaskRoute st ss now sid pid b).2 = false) ∧
    (∀ st ss now sid tid,
      isForbidden (SessionVariant.deleteTaskRoute st ss now sid tid).2 = false) ∧
    (∀ st ss now sid,
      isForbidden (SessionVariant.listUsersRoute st ss now sid).2 = false) := by
  refine ⟨?_, ?_, ?_, ?_, ?_, ?_, ?_⟩
  · intro r op i n e
    cases r <;> cases op <;> rfl
  · intro st ss now sid pid
    rcases sessionAuth_cases ss now sid with h | ⟨ident, h⟩
    · simp [SessionVariant.deleteProjectRoute, h, isForbidden, HOut.status]
    · simp [SessionVariant.deleteProjectRoute, h, deleteProject_not_forbidden]
  · intro st ss now sid pid b
    rcases sessionAuth_cases ss now sid with h | ⟨ident, h⟩
    · simp [SessionVariant.updateProjectRoute, h, isForbidden, HOut.status]
    · simp [SessionVariant.updateProjectRoute, h, updateProject_not_forbidden]
  · intro st ss now sid b
    rcases sessionAuth_cases ss now sid with h | ⟨ident, h⟩
    · simp [SessionVariant.createProjectRoute, h, isForbidden, HOut.status]
    · simp [SessionVariant.createProjectRoute, h, SessionVariant.createProject,
            isForbidden, HOut.status]
  · intro st ss now sid pid b
    rcases sessionAuth_cases ss now sid with h | ⟨ident, h⟩
    · simp [SessionVariant.createTaskRoute, h, isForbidden, HOut.status]
    · simp [SessionVariant.createTaskRoute, h, SessionVariant.createTask,
            isForbidden, HOut.status]
  · intro st ss now sid tid
    rcases sessionAuth_cases ss now sid with h | ⟨ident, h⟩
    · simp [SessionVariant.deleteTaskRoute, h, isForbidden, HOut.status]
    · simp [SessionVariant.deleteTaskRoute, h, deleteTask_not_forbidden]
  · intro st ss now sid
    rcases sessionAuth_cases ss now sid with h | ⟨ident, h⟩
    · simp [SessionVariant.listUsersRoute, h, isForbidden, HOut.status]
    · simp [SessionVariant.listUsersRoute, h, SessionVariant.listUsers,
            isForbidden, HOut.status]

/-- C2, counterexample: two stores whose single user differs only in role
(admin versus employee) produce identical session records and identical
login responses, so the server-side session record cannot carry the role
and the resolved identity does not either. -/
theorem C2_counterexample :
    (let uAdmin : User := ⟨1, "alice", "a@x.com", bcryptHash "pw", "admin"⟩
     let uEmp : User := ⟨1, "alice", "a@x.com", bcryptHash "pw", "employee"⟩
     uAdmin.role ≠ uEmp.role ∧
     (SessionVariant.login ⟨[uAdmin], [], [], 2, 1, 1⟩ [] 0 7 ⟨"a@x.com", "pw"⟩).2 =
     (SessionVariant.login ⟨[uEmp], [], [], 2, 1, 1⟩ [] 0 7 ⟨"a@x.com", "pw"⟩).2) := by
  exact ⟨by decide, rfl⟩

/-- C2, amended: the session login maps the opaque reference to the three
fields userId, userName, userEmail (with the cookie expiry); the identity
resolved on subsequent requests carries id, name and email only, and is
the same whatever the user's role. -/
theorem C2_amended (st : Store) (ss : SessionVariant.Sessions)
    (now sid : Nat) (b : LoginBody) (u : User)
    (hfind : findUserByEmail st b.email = some u)
    (hpw : bcryptCompare b.password u.password = true) :
    (SessionVariant.login st ss now sid b).1 = st ∧
    (SessionVariant.login st ss now sid b).2.1 =
      (sid, ⟨u.id, u.name, u.email, now + SessionVariant.sessionTTL⟩) :: ss ∧
    (∀ now2, now2 < now + SessionVariant.sessionTTL →
      SessionVariant.requireAuth (SessionVariant.login st ss now sid b).2.1
        now2 (some sid) = .ok ⟨u.id, u.name, u.email⟩) := by
  refine ⟨?_, ?_, ?_⟩
  · simp [SessionVariant.login, hfind, hpw]
  · simp [SessionVariant.login, hfind, hpw]
  · intro now2 h2
    simp [SessionVariant.login, hfind, hpw, SessionVariant.requireAuth,
          SessionVariant.lookupSession, h2]

/-- Witness for C2_amended at a concrete store, user and login body. -/
theorem C2_amended_witness :
    (SessionVariant.login
      ⟨[⟨1, "alice", "a@x.com", bcryptHash "pw", "admin"⟩], [], [], 2, 1, 1⟩
      [] 0 7 ⟨"a@x.com", "pw"⟩).2.1 =
      [(7, ⟨1, "alice", "a@x.com", SessionVariant.sessionTTL⟩)] :=
  (C2_amended ⟨[⟨1, "alice", "a@x.com", bcryptHash "pw", "admin"⟩], [], [], 2, 1, 1⟩
    [] 0 7 ⟨"a@x.com", "pw"⟩ ⟨1, "alice", "a@x.com", bcryptHash "pw", "admin"⟩
    (by decide) (by decide)).2.1

/-- C3: in the JWT variant the register route mounts no authentication
middleware (its embedding takes no credential), copies the role from the
request body, and for body role admin it creates a user row with role
admin and returns a 201 response whose signed token asserts role admin. -/
theorem C3_register_role_escalation :
    (let st0 : Store := ⟨[], [], [], 1, 1, 1⟩
     let r := JWT.register "s3cret" 1000 st0 ⟨"mallory", "m@x.com", "pw", some "admin"⟩
     r.2.status = 201 ∧
     r.1.users = [⟨1, "mallory", "m@x.com", bcryptHash "pw", "admin"⟩] ∧
     r.2 = .regOk ⟨⟨1, "mallory", "m@x.com", "admin"⟩, 1000, "s3cret"⟩
                  ⟨1, "mallory", "m@x.com", "admin"⟩) := by
  exact ⟨rfl, rfl, rfl⟩

/-- C4, code_bug evaluation: in both variants, a create-task request whose
path projectId (999) references no existing Project succeeds with 201 and
persists the Task row, instead of failing with InvalidReference or
NotFound. -/
theorem C4_code_bug_eval :
    (let st0 : Store := ⟨[], [], [], 5, 5, 5⟩
     let b : TaskCreateBody := ⟨"t", "d", none, none⟩
     findProjectById st0 999 = none ∧
     (JWT.createTask st0 999 b).2.status = 201 ∧
     (JWT.createTask st0 999 b).1.tasks =
       [⟨5, "t", "d", 999, none, "medium", "pending"⟩] ∧
     (SessionVariant.createTask st0 999 b).2.status = 201 ∧
     (SessionVariant.createTask st0 999 b).1.tasks =
       [⟨5, "t", "d", 999, none, "medium", "pending"⟩]) := by
  exact ⟨rfl, rfl, rfl, rfl, rfl⟩

/-- C5: in both variants, login leaves the store unchanged, and the error
response when no user has the email is identical (same status, same error
value) to the one when the user exists but the password comparison fails. -/
theorem C5_login_indistinguishable (secret : String) (expAt : Nat)
    (st : Store) (ss : SessionVariant.Sessions) (now sid : Nat)
    (b : LoginBody) :
    ((JWT.login secret expAt st b).1 = st) ∧
    ((SessionVariant.login st ss now sid b).1 = st) ∧
    (findUserByEmail st b.email = none →
      (JWT.login secret expAt st b).2 = .err 401 "Invalid credentials" ∧
      (SessionVariant.login st ss now sid b).2 =
        (ss, .err 401 "Invalid email or password")) ∧
    (∀ u, findUserByEmail st b.email = some u →
      bcryptCompare b.password u.password = false →
      (JWT.login secret expAt st b).2 = .err 401 "Invalid credentials" ∧
      (SessionVariant.login st ss now sid b).2 =
        (ss, .err 401 "Invalid email or password")) := by
  refine ⟨?_, ?_, ?_, ?_⟩
  · rcases hf : findUserByEmail st b.email with _ | u
    · simp [JWT.login, hf]
    · by_cases hc : bcryptCompare b.password u.password <;>
        simp [JWT.login, hf, hc]
  · rcases hf : findUserByEmail st b.email with _ | u
    · simp [SessionVariant.login, hf]
    · by_cases hc : bcryptCompare b.password u.password <;>
        simp [SessionVariant.login, hf, hc]
  · intro hf
    exact ⟨by simp [JWT.login, hf], by simp [SessionVariant.login, hf]⟩
  · intro u hf hc
    exact ⟨by simp [JWT.login, hf, hc], by simp [SessionVariant.login, hf, hc]⟩

/-- Witness for C5_login_indistinguishable: a store holding one user, hit
once with an unknown email and once with a wrong password. -/
theorem C5_witness :
    (JWT.login "s" 9 ⟨[⟨1, "al", "a@x.com", bcryptHash "pw", "admin"⟩], [], [], 2, 1, 1⟩
       ⟨"no@x.com", "p"⟩).2 = .err 401 "Invalid credentials" ∧
    (JWT.login "s" 9 ⟨[⟨1, "al", "a@x.com", bcryptHash "pw", "admin"⟩], [], [], 2, 1, 1⟩
       ⟨"a@x.com", "wrong"⟩).2 = .err 401 "Invalid credentials" :=
  ⟨((C5_login_indistinguishable "s" 9
      ⟨[⟨1, "al", "a@x.com", bcryptHash "pw", "admin"⟩], [], [], 2, 1, 1⟩
      [] 0 7 ⟨"no@x.com", "p"⟩).2.2.1 (by decide)).1,
   ((C5_login_indistinguishable "s" 9
      ⟨[⟨1, "al", "a@x.com", bcryptHash "pw", "admin"⟩], [], [], 2, 1, 1⟩
      [] 0 7 ⟨"a@x.com", "wrong"⟩).2.2.2
      ⟨1, "al", "a@x.com", bcryptHash "pw", "admin"⟩ (by decide) (by decide)).1⟩

/-- C6: session logout removes the server-side record, so a subsequent
resolve of the same reference fails with Unauthenticated; JWT logout
changes no server state, and any token signed with the secret still
resolves successfully while its embedded expiry has not elapsed, and
fails verification once it has. -/
theorem C6_logout (ss : SessionVariant.Sessions) (sid now : Nat)
    (st : Store) (secret : String) (t : Token) :
    (SessionVariant.lookupSession (SessionVariant.logout ss (some sid)).1 sid
      = none) ∧
    (SessionVariant.requireAuth (SessionVariant.logout ss (some sid)).1 now
      (some sid) = .error (.err 401 "Authentication required")) ∧
    (JWT.logout st = (st, .okMsg "Logout successful (JWT stateless)")) ∧
    (t.signedWith = secret → now < t.exp →
      JWT.authenticateJWT secret now (some t) = .ok t.claims) ∧
    (t.exp ≤ now → jwtVerify secret now t = none) := by
  have hlook : SessionVariant.lookupSession
      (SessionVariant.logout ss (some sid)).1 sid = none := by
    simp only [SessionVariant.logout, SessionVariant.lookupSession]
    rw [find?_filter_not_self]
    rfl
  refine ⟨hlook, ?_, rfl, ?_, ?_⟩
  · simp [SessionVariant.requireAuth, hlook]
  · intro hs hn
    simp [JWT.authenticateJWT, jwtVerify, hs, hn]
  · intro he
    have hlt : ¬ now < t.exp := Nat.not_lt.mpr he
    simp [jwtVerify, hlt]

/-- Witness for C6_logout: one live session destroyed by logout, and a
concrete token checked before its expiry. -/
theorem C6_witness :
    (SessionVariant.requireAuth
      (SessionVariant.logout [(7, ⟨1, "al", "a@x.com", 99⟩)] (some 7)).1 3
      (some 7) = .error (.err 401 "Authentication required")) ∧
    (JWT.authenticateJWT "s" 5 (some ⟨⟨1, "al", "a@x.com", "admin"⟩, 10, "s"⟩) =
      .ok ⟨1, "al", "a@x.com", "admin"⟩) :=
  ⟨(C6_logout [(7, ⟨1, "al", "a@x.com", 99⟩)] 7 3
      ⟨[], [], [], 1, 1, 1⟩ "s" ⟨⟨1, "al", "a@x.com", "admin"⟩, 10, "s"⟩).2.1,
   (C6_logout [(7, ⟨1, "al", "a@x.com", 99⟩)] 7 5
      ⟨[], [], [], 1, 1, 1⟩ "s" ⟨⟨1, "al", "a@x.com", "admin"⟩, 10, "s"⟩).2.2.2.1
      rfl (by decide)⟩

/-- C7: in both variants, updating or deleting a Project or Task id absent
from the store returns 404 NotFound and leaves the store unchanged. -/
theorem C7_update_delete_notfound (st : Store) (i : Nat)
    (bpJ : JWT.ProjectUpdateBody) (bpS : SessionVariant.ProjectUpdateBody)
    (btJ : JWT.TaskUpdateBody) (btS : SessionVariant.TaskUpdateBody) :
    (findProjectById st i = none →
      JWT.updateProject st i bpJ = (st, .err 404 "Project not found") ∧
      JWT.deleteProject st i = (st, .err 404 "Project not found") ∧
      SessionVariant.updateProject st i bpS = (st, .err 404 "Project not found") ∧
      SessionVariant.deleteProject st i = (st, .err 404 "Project not found")) ∧
    (findTaskById st i = none →
      JWT.updateTask st i btJ = (st, .err 404 "Task not found") ∧
      JWT.deleteTask st i = (st, .err 404 "Task not found") ∧
      SessionVariant.updateTask st i btS = (st, .err 404 "Task not found") ∧
      SessionVariant.deleteTask st i = (st, .err 404 "Task not found")) := by
  constructor
  · intro hf
    have hfl : st.projects.find? (fun p => p.id == i) = none := hf
    have hfilter := filter_not_of_find?_eq_none hfl
    refine ⟨by simp [JWT.updateProject, hf], ?_,
            by simp [SessionVariant.updateProject, hf], ?_⟩
    · simp [JWT.deleteProject, hfilter]
    · simp [SessionVariant.deleteProject, hfilter]
  · intro hf
    have hfl : st.tasks.find? (fun t => t.id == i) = none := hf
    have hfilter := filter_not_of_find?_eq_none hfl
    refine ⟨by simp [JWT.updateTask, hf], ?_,
            by simp [SessionVariant.updateTask, hf], ?_⟩
    · simp [JWT.deleteTask, hfilter]
    · simp [SessionVariant.deleteTask, hfilter]

/-- Witness for C7_update_delete_notfound on a store with one project and
one task, probed at the absent id 42. -/
theorem C7_witness :
    JWT.updateProject
      ⟨[], [⟨1, "p", "d", "active", 1⟩], [⟨1, "t", "d", 1, none, "medium", "pending"⟩], 1, 2, 2⟩
      42 ⟨none, none, none, none⟩ =
      (⟨[], [⟨1, "p", "d", "active", 1⟩], [⟨1, "t", "d", 1, none, "medium", "pending"⟩], 1, 2, 2⟩,
       .err 404 "Project not found") ∧
    SessionVariant.deleteTask
      ⟨[], [⟨1, "p", "d", "active", 1⟩], [⟨1, "t", "d", 1, none, "medium", "pending"⟩], 1, 2, 2⟩
      42 =
      (⟨[], [⟨1, "p", "d", "active", 1⟩], [⟨1, "t", "d", 1, none, "medium", "pending"⟩], 1, 2, 2⟩,
       .err 404 "Task not found") :=
  ⟨((C7_update_delete_notfound
      ⟨[], [⟨1, "p", "d", "active", 1⟩], [⟨1, "t", "d", 1, none, "medium", "pending"⟩], 1, 2, 2⟩
      42 ⟨none, none, none, none⟩ ⟨none, none, none⟩
      ⟨none, none, none, none, none⟩ ⟨none, none, none, none⟩).1 (by decide)).1,
   (((C7_update_delete_notfound
      ⟨[], [⟨1, "p", "d", "active", 1⟩], [⟨1, "t", "d", 1, none, "medium", "pending"⟩], 1, 2, 2⟩
      42 ⟨none, none, none, none⟩ ⟨none, none, none⟩
      ⟨none, none, none, none, none⟩ ⟨none, none, none, none⟩).2 (by decide)).2.2.2)⟩

/-- C8: in both variants, an update supplying only status yields a task
equal to the prior one except for status — in the response and in the
store — and in general every unsupplied field retains its prior value
(the session handler additionally never touches assignedUserId). -/
theorem C8_update_frame (st : Store) (tid : Nat) (t0 : Task) (sNew : String)
    (hfind : findTaskById st tid = some t0) :
    ((JWT.updateTask st tid ⟨none, none, some sNew, none, none⟩).2 =
      .taskOut 200 { t0 with status := sNew }) ∧
    (findTaskById (JWT.updateTask st tid ⟨none, none, some sNew, none, none⟩).1 tid =
      some { t0 with status := sNew }) ∧
    ((SessionVariant.updateTask st tid ⟨none, none, some sNew, none⟩).2 =
      .taskOut 200 { t0 with status := sNew }) ∧
    (findTaskById (SessionVariant.updateTask st tid ⟨none, none, some sNew, none⟩).1 tid =
      some { t0 with status := sNew }) ∧
    (∀ b : JWT.TaskUpdateBody,
      (b.title = none → (JWT.applyTaskUpdate t0 b).title = t0.title) ∧
      (b.description = none →
        (JWT.applyTaskUpdate t0 b).description = t0.description) ∧
      (b.status = none → (JWT.applyTaskUpdate t0 b).status = t0.status) ∧
      (b.priority = none → (JWT.applyTaskUpdate t0 b).priority = t0.priority) ∧
      (b.assignedUserId = none →
        (JWT.applyTaskUpdate t0 b).assignedUserId = t0.assignedUserId)) ∧
    (∀ b : SessionVariant.TaskUpdateBody,
      (b.title = none → (SessionVariant.applyTaskUpdateS t0 b).title = t0.title) ∧
      (b.description = none →
        (SessionVariant.applyTaskUpdateS t0 b).description = t0.description) ∧
      (b.status = none →
        (SessionVariant.applyTaskUpdateS t0 b).status = t0.status) ∧
      (b.priority = none →
        (SessionVariant.applyTaskUpdateS t0 b).priority = t0.priority) ∧
      (SessionVariant.applyTaskUpdateS t0 b).assignedUserId = t0.assignedUserId) := by
  have hfindL : st.tasks.find? (fun q : Task => q.id == tid) = some t0 := hfind
  have hid : (t0.id == tid) = true := by
    have := List.find?_some hfindL
    simpa using this
  have hup : ((JWT.applyTaskUpdate t0 ⟨none, none, some sNew, none, none⟩).id == tid) = true := hid
  have hupS : ((SessionVariant.applyTaskUpdateS t0 ⟨none, none, some sNew, none⟩).id == tid) = true := hid
  refine ⟨?_, ?_, ?_, ?_, ?_, ?_⟩
  · simp [JWT.updateTask, hfind]
    rfl
  · simp only [JWT.updateTask, findTaskById, hfindL]
    exact find?_map_if (fun q : Task => q.id == tid)
      (JWT.applyTaskUpdate t0 ⟨none, none, some sNew, none, none⟩)
      hup st.tasks t0 hfindL
  · simp [SessionVariant.updateTask, hfind]
    rfl
  · simp only [SessionVariant.updateTask, findTaskById, hfindL]
    exact find?_map_if (fun q : Task => q.id == tid)
      (SessionVariant.applyTaskUpdateS t0 ⟨none, none, some sNew, none⟩)
      hupS st.tasks t0 hfindL
  · intro b
    refine ⟨?_, ?_, ?_, ?_, ?_⟩ <;>
      (intro hb; simp [JWT.applyTaskUpdate, hb])
  · intro b
    refine ⟨?_, ?_, ?_, ?_, ?_⟩
    · intro hb; simp [SessionVariant.applyTaskUpdateS, hb]
    · intro hb; simp [SessionVariant.applyTaskUpdateS, hb]
    · intro hb; simp [SessionVariant.applyTaskUpdateS, hb]
    · intro hb; simp [SessionVariant.applyTaskUpdateS, hb]
    · simp [SessionVariant.applyTaskUpdateS]

/-- Witness for C8_update_frame: one stored task updated to status done;
title, description, priority and assignedUserId keep their prior values. -/
theorem C8_witness :
    (JWT.updateTask
      ⟨[], [], [⟨1, "t", "d", 1, some 4, "high", "pending"⟩], 1, 1, 2⟩
      1 ⟨none, none, some "done", none, none⟩).2 =
      .taskOut 200 ⟨1, "t", "d", 1, some 4, "high", "done"⟩ :=
  (C8_update_frame
    ⟨[], [], [⟨1, "t", "d", 1, some 4, "high", "pending"⟩], 1, 1, 2⟩
    1 ⟨1, "t", "d", 1, some 4, "high", "pending"⟩ "done" (by decide)).1

theorem find?_append_singleton_none {α : Type} (p : α → Bool) (l : List α)
    (a : α) (hl : l.find? p = none) (ha : p a = false) :
    (l ++ [a]).find? p = none := by
  simp [List.find?_append, hl, ha]

theorem register_success (secret : String) (expAt : Nat) (st : Store)
    (b : JWT.RegisterBody) (h : findUserByEmail st b.email = none) :
    JWT.register secret expAt st b =
      ({ st with
          users := st.users ++
            [⟨st.nextUserId, b.name, b.email, bcryptHash b.password,
              b.role.getD "employee"⟩],
          nextUserId := st.nextUserId + 1 },
       .regOk
         (jwtSign secret
           ⟨st.nextUserId, b.name, b.email, b.role.getD "employee"⟩ expAt)
         ⟨st.nextUserId, b.name, b.email, b.role.getD "employee"⟩) := by
  simp [JWT.register, h]

theorem register_successS (st : Store) (b : SessionVariant.RegisterBody)
    (h : findUserByEmail st b.email = none) :
    SessionVariant.register st b =
      ({ st with
          users := st.users ++
            [⟨st.nextUserId, b.name, b.email, bcryptHash b.password,
              "employee"⟩],
          nextUserId := st.nextUserId + 1 },
       .regSessionOk ⟨st.nextUserId, b.name, b.email⟩) := by
  simp [SessionVariant.register, h]

theorem registerAll_ok (secret : String) (expAt : Nat) :
    ∀ (bs : List JWT.RegisterBody) (st : Store),
      (bs.map (fun b => b.email)).Nodup →
      (∀ b ∈ bs, findUserByEmail st b.email = none) →
      (∀ o ∈ (JWT.registerAll secret expAt st bs).2, o.status = 201) ∧
      (JWT.registerAll secret expAt st bs).1.users.map (fun u => u.id) =
        st.users.map (fun u => u.id) ++ List.range' st.nextUserId bs.length := by
  intro bs
  induction bs with
  | nil =>
    intro st _ _
    exact ⟨by simp [JWT.registerAll], by simp [JWT.registerAll]⟩
  | cons b rest ih =>
    intro st hnodup habs
    have hnodup' : (b.email :: rest.map (fun b => b.email)).Nodup := by
      simpa using hnodup
    have hb : findUserByEmail st b.email = none := habs b (by simp)
    have hsucc := register_success secret expAt st b hb
    have habs' : ∀ b' ∈ rest,
        findUserByEmail
          { st with
            users := st.users ++
              [⟨st.nextUserId, b.name, b.email, bcryptHash b.password,
                b.role.getD "employee"⟩],
            nextUserId := st.nextUserId + 1 } b'.email = none := by
      intro b' hb'
      have h1 : st.users.find? (fun u => u.email == b'.email) = none :=
        habs b' (List.mem_cons_of_mem _ hb')
      have hne : b.email ≠ b'.email := by
        intro hEq
        exact (List.nodup_cons.mp hnodup').1
          (hEq ▸ List.mem_map_of_mem _ hb')
      exact find?_append_singleton_none (fun u : User => u.email == b'.email)
        st.users
        ⟨st.nextUserId, b.name, b.email, bcryptHash b.password,
         b.role.getD "employee"⟩ h1 (by simp [hne])
    have hrest := ih _ (List.nodup_cons.mp hnodup').2 habs'
    constructor
    · intro o ho
      simp only [JWT.registerAll, hsucc] at ho
      rcases List.mem_cons.mp ho with h | h
      · rw [h]; rfl
      · exact hrest.1 o h
    · simp only [JWT.registerAll, hsucc]
      rw [hrest.2]
      simp [List.range'_succ]

theorem registerAllS_ok :
    ∀ (bs : List SessionVariant.RegisterBody) (st : Store),
      (bs.map (fun b => b.email)).Nodup →
      (∀ b ∈ bs, findUserByEmail st b.email = none) →
      (∀ o ∈ (SessionVariant.registerAll st bs).2, o.status = 201) ∧
      (SessionVariant.registerAll st bs).1.users.map (fun u => u.id) =
        st.users.map (fun u => u.id) ++ List.range' st.nextUserId bs.length := by
  intro bs
  induction bs with
  | nil =>
    intro st _ _
    exact ⟨by simp [SessionVariant.registerAll],
           by simp [SessionVariant.registerAll]⟩
  | cons b rest ih =>
    intro st hnodup habs
    have hnodup' : (b.email :: rest.map (fun b => b.email)).Nodup := by
      simpa using hnodup
    have hb : findUserByEmail st b.email = none := habs b (by simp)
    have hsucc := register_successS st b hb
    have habs' : ∀ b' ∈ rest,
        findUserByEmail
          { st with
            users := st.users ++
              [⟨st.nextUserId, b.name, b.email, bcryptHash b.password,
                "employee"⟩],
            nextUserId := st.nextUserId + 1 } b'.email = none := by
      intro b' hb'
      have h1 : st.users.find? (fun u => u.email == b'.email) = none :=
        habs b' (List.mem_cons_of_mem _ hb')
      have hne : b.email ≠ b'.email := by
        intro hEq
        exact (List.nodup_cons.mp hnodup').1
          (hEq ▸ List.mem_map_of_mem _ hb')
      exact find?_append_singleton_none (fun u : User => u.email == b'.email)
        st.users
        ⟨st.nextUserId, b.name, b.email, bcryptHash b.password, "employee"⟩
        h1 (by simp [hne])
    have hrest := ih _ (List.nodup_cons.mp hnodup').2 habs'
    constructor
    · intro o ho
      simp only [SessionVariant.registerAll, hsucc] at ho
      rcases List.mem_cons.mp ho with h | h
      · rw [h]; rfl
      · exact hrest.1 o h
    · simp only [SessionVariant.registerAll, hsucc]
      rw [hrest.2]
      simp [List.range'_succ]

theorem register_dup (secret : String) (expAt : Nat) (st : Store)
    (b : JWT.RegisterBody) (u : User) (hu : u ∈ st.users)
    (he : u.email = b.email) :
    JWT.register secret expAt st b = (st, .err 400 "Email already exists") := by
  have hsome : (st.users.find? (fun x => x.email == b.email)).isSome :=
    List.find?_isSome.mpr ⟨u, hu, by simp [he]⟩
  rcases hx : st.users.find? (fun x => x.email == b.email) with _ | v
  · rw [hx] at hsome; simp at hsome
  · have hx' : findUserByEmail st b.email = some v := hx
    simp [JWT.register, hx']

theorem register_dupS (st : Store) (b : SessionVariant.RegisterBody)
    (u : User) (hu : u ∈ st.users) (he : u.email = b.email) :
    SessionVariant.register st b =
      (st, .err 400 "User with this email already exists") := by
  have hsome : (st.users.find? (fun x => x.email == b.email)).isSome :=
    List.find?_isSome.mpr ⟨u, hu, by simp [he]⟩
  rcases hx : st.users.find? (fun x => x.email == b.email) with _ | v
  · rw [hx] at hsome; simp at hsome
  · have hx' : findUserByEmail st b.email = some v := hx
    simp [SessionVariant.register, hx']

/-- C9: in both variants, a sequence of registrations with pairwise
distinct fresh emails all succeed with 201, the store grows by exactly one
row per registration, and the new rows get the pairwise-distinct
server-assigned identifiers nextUserId, nextUserId+1, ...; a registration
whose email equals that of an existing user fails with the duplicate-email
error, whatever its name and password, and leaves the store unchanged. -/
theorem C9_registration (secret : String) (expAt : Nat) (st st2 st3 st4 : Store)
    (bs : List JWT.RegisterBody) (bsS : List SessionVariant.RegisterBody)
    (bJ : JWT.RegisterBody) (bS : SessionVariant.RegisterBody) (u v : User) :
    ((bs.map (fun b => b.email)).Nodup →
      (∀ b ∈ bs, findUserByEmail st b.email = none) →
      (∀ o ∈ (JWT.registerAll secret expAt st bs).2, o.status = 201) ∧
      (JWT.registerAll secret expAt st bs).1.users.map (fun u => u.id) =
        st.users.map (fun u => u.id) ++ List.range' st.nextUserId bs.length ∧
      (JWT.registerAll secret expAt st bs).1.users.length =
        st.users.length + bs.length ∧
      (List.range' st.nextUserId bs.length).Nodup) ∧
    ((bsS.map (fun b => b.email)).Nodup →
      (∀ b ∈ bsS, findUserByEmail st2 b.email = none) →
      (∀ o ∈ (SessionVariant.registerAll st2 bsS).2, o.status = 201) ∧
      (SessionVariant.registerAll st2 bsS).1.users.map (fun u => u.id) =
        st2.users.map (fun u => u.id) ++ List.range' st2.nextUserId bsS.length ∧
      (SessionVariant.registerAll st2 bsS).1.users.length =
        st2.users.length + bsS.length ∧
      (List.range' st2.nextUserId bsS.length).Nodup) ∧
    (u ∈ st3.users → u.email = bJ.email →
      JWT.register secret expAt st3 bJ =
        (st3, .err 400 "Email already exists")) ∧
    (v ∈ st4.users → v.email = bS.email →
      SessionVariant.register st4 bS =
        (st4, .err 400 "User with this email already exists")) := by
  refine ⟨?_, ?_, ?_, ?_⟩
  · intro hnd hab
    obtain ⟨h1, h2⟩ := registerAll_ok secret expAt bs st hnd hab
    refine ⟨h1, h2, ?_, List.nodup_range' _ _⟩
    have := congrArg List.length h2
    simpa using this
  · intro hnd hab
    obtain ⟨h1, h2⟩ := registerAllS_ok bsS st2 hnd hab
    refine ⟨h1, h2, ?_, List.nodup_range' _ _⟩
    have := congrArg List.length h2
    simpa using this
  · intro hu he
    exact register_dup secret expAt st3 bJ u hu he
  · intro hv he
    exact register_dupS st4 bS v hv he

/-- Witness for C9_registration: two fresh registrations on an empty store
succeed with distinct identifiers, and a duplicate-email registration with
a different name and password fails with the duplicate-email error. -/
theorem C9_witness :
    (JWT.registerAll "s" 9 ⟨[], [], [], 1, 1, 1⟩
      [⟨"al", "a@x.com", "pw1", none⟩, ⟨"bo", "b@x.com", "pw2", some "manager"⟩]).1.users.map
        (fun u => u.id) = [1, 2] ∧
    JWT.register "s" 9
      ⟨[⟨1, "al", "a@x.com", bcryptHash "pw1", "employee"⟩], [], [], 2, 1, 1⟩
      ⟨"other", "a@x.com", "pw9", none⟩ =
      (⟨[⟨1, "al", "a@x.com", bcryptHash "pw1", "employee"⟩], [], [], 2, 1, 1⟩,
       .err 400 "Email already exists") :=
  ⟨by
    have h := (C9_registration "s" 9 ⟨[], [], [], 1, 1, 1⟩
      ⟨[], [], [], 1, 1, 1⟩ ⟨[], [], [], 1, 1, 1⟩ ⟨[], [], [], 1, 1, 1⟩
      [⟨"al", "a@x.com", "pw1", none⟩, ⟨"bo", "b@x.com", "pw2", some "manager"⟩]
      [] ⟨"x", "x@x.com", "p", none⟩ ⟨"x", "x@x.com", "p"⟩
      ⟨1, "al", "a@x.com", "pw", "employee"⟩
      ⟨1, "al", "a@x.com", "pw", "employee"⟩).1
      (by decide) (by decide)
    simpa using h.2.1,
   by
    have h := (C9_registration "s" 9 ⟨[], [], [], 1, 1, 1⟩
      ⟨[], [], [], 1, 1, 1⟩
      ⟨[⟨1, "al", "a@x.com", bcryptHash "pw1", "employee"⟩], [], [], 2, 1, 1⟩
      ⟨[], [], [], 1, 1, 1⟩
      [] [] ⟨"other", "a@x.com", "pw9", none⟩ ⟨"x", "x@x.com", "p"⟩
      ⟨1, "al", "a@x.com", bcryptHash "pw1", "employee"⟩
      ⟨1, "al", "a@x.com", "pw", "employee"⟩).2.2.1
      (by decide) (by decide)
    exact h⟩

/-- C10, code_bug evaluation: a registration with role outside the closed
role enumeration and task creations with priority outside the closed
priority enumeration all succeed with 201 and persist the row carrying the
invalid value, instead of failing with a validation error. -/
theorem C10_code_bug_eval :
    (validRoles.contains "superuser" = false) ∧
    (validPriorities.contains "urgent" = false) ∧
    (let r := JWT.register "s" 9 ⟨[], [], [], 1, 1, 1⟩
       ⟨"eve", "e@x.com", "pw", some "superuser"⟩
     r.2.status = 201 ∧ r.1.users.map (fun u => u.role) = ["superuser"]) ∧
    (let stP : Store := ⟨[], [⟨1, "p", "d", "active", 1⟩], [], 1, 2, 1⟩
     let rJ := JWT.createTask stP 1 ⟨"t", "d", none, some "urgent"⟩
     let rS := SessionVariant.createTask stP 1 ⟨"t", "d", none, some "urgent"⟩
     rJ.2.status = 201 ∧ rJ.1.tasks.map (fun t => t.priority) = ["urgent"] ∧
     rS.2.status = 201 ∧ rS.1.tasks.map (fun t => t.priority) = ["urgent"]) := by
  exact ⟨rfl, rfl, ⟨rfl, rfl⟩, ⟨rfl, rfl, rfl, rfl⟩⟩

end TaskTracker
